import Mathlib

/-!
Verification of the business-website-builder repository: three CLI clients
(src/scripts/review_fetch.py, src/scripts/url_scraper.py, src/scripts/seo.py).
Python strings are modelled as Lean String values; the Python string methods
the scripts use (startswith, strip, split, replace, the in operator) are
re-implemented below over List Char so that every definition evaluates in
the kernel. Side effects (HTTP, printing, file writes) are modelled as
explicit data: requests and responses are records, printed lines and file
writes are accumulated in lists, and raised exceptions are explicit
constructors of the result types.
-/

/-! ## Python string primitives -/

/-- Python str.startswith: does the list s start with the list p? -/
def startsWithL : List Char → List Char → Bool
  | _, [] => true
  | [], _ :: _ => false
  | c :: cs, p :: ps => c = p && startsWithL cs ps

/-- Python substring membership (the in operator): does sub occur inside s? -/
def containsSubL (s sub : List Char) : Bool :=
  match s with
  | [] => startsWithL [] sub
  | _ :: cs => startsWithL s sub || containsSubL cs sub

/-- The whitespace characters stripped by Python str.strip(). -/
def isPySpace (c : Char) : Bool :=
  c = ' ' || c = '\t' || c = '\n' || c = '\r' || c = '\x0b' || c = '\x0c'

/-- Python str.strip(): drop leading and trailing whitespace. -/
def stripL (l : List Char) : List Char :=
  ((l.dropWhile isPySpace).reverse.dropWhile isPySpace).reverse

/-- Fuel-driven worker for split: fuel bounds the number of characters
consumed, so fuel = s.length always suffices (each step consumes one). -/
def splitOnFuel (pat : List Char) : Nat → List Char → List (List Char)
  | _, [] => [[]]
  | 0, s => [s]
  | fuel + 1, c :: cs =>
    if pat ≠ [] && startsWithL (c :: cs) pat then
      [] :: splitOnFuel pat fuel (List.drop (pat.length - 1) cs)
    else
      match splitOnFuel pat fuel cs with
      | [] => [[c]]
      | g :: gs => (c :: g) :: gs

/-- Python str.split(sep) for a non-empty separator sep. -/
def splitOnL (s pat : List Char) : List (List Char) :=
  splitOnFuel pat s.length s

/-- Fuel-driven worker for replace; fuel = s.length always suffices. -/
def replaceFuel (old new : List Char) : Nat → List Char → List Char
  | _, [] => []
  | 0, s => s
  | fuel + 1, c :: cs =>
    if old ≠ [] && startsWithL (c :: cs) old then
      new ++ replaceFuel old new fuel (List.drop (old.length - 1) cs)
    else
      c :: replaceFuel old new fuel cs

/-- Python str.replace(old, new) for a non-empty old, replacing every
non-overlapping occurrence left to right. -/
def pyReplace (s old new : String) : String :=
  ⟨replaceFuel old.data new.data s.data.length s.data⟩

/-- Python str.startswith on String values. -/
def pyStartsWith (s p : String) : Bool := startsWithL s.data p.data

/-- Python sub in s on String values. -/
def pyContainsSub (s sub : String) : Bool := containsSubL s.data sub.data

/-- Python str.strip() on String values. -/
def pyStrip (s : String) : String := ⟨stripL s.data⟩

/-- Python truthiness of a string: True exactly when non-empty. -/
def pyTruthy (s : String) : Bool := !s.data.isEmpty

/-- Python str.split(sep) on String values (non-empty sep). -/
def pySplit (s sep : String) : List String :=
  (splitOnL s.data sep.data).map fun l => ⟨l⟩

/-! ## seo.py: constants and directory naming -/

def USER_ID : String := "5f9T1QuvWvbnkogeUqfk7lmUpsm1"

def SAVED_ITEM_ID : String := "ujef8PYUuWgAtDcYR43aNF"

def API_KEY : String := "1facf19033a348ffb0724746338ef0cb"

def FOCUS_AREA : String :=
  "Content Optimization (Hero, Services, Header, Meta, FAQ, CTAs, etc.)"

/-- urllib.parse.urlparse(url).netloc for an absolute URL: the text after
the first // up to the next /, ? or #; empty when the URL has no //. -/
def urlparse_netloc (url : String) : String :=
  match splitOnL url.data "//".data with
  | _ :: rest :: _ => ⟨rest.takeWhile fun c => !(c = '/' || c = '?' || c = '#')⟩
  | _ => ""

/-- seo.get_url_directory_name: netloc with www. removed and the characters
. and - replaced by underscores. -/
def get_url_directory_name (url : String) : String :=
  let domain := pyReplace (urlparse_netloc url) "www." ""
  pyReplace (pyReplace domain "." "_") "-" "_"

/-- seo.create_url_directory: the directory path files/<domain> that the
script creates and returns (os.path.join with forward slashes). -/
def create_url_directory (url : String) : String :=
  "files/" ++ get_url_directory_name url

/-- url_scraper.main: the URL-safe directory name built inline before
saving (scheme literals removed, then /, . and : replaced by _). -/
def url_safe_name (url : String) : String :=
  pyReplace (pyReplace (pyReplace (pyReplace (pyReplace url
    "https://" "") "http://" "") "/" "_") "." "_") ":" "_"

/-! ## seo.py: start_pipeline -/

/-- The JSON body sent by seo.start_pipeline. -/
structure PipelinePayload where
  url : String
  focus_area : String
deriving DecidableEq, Repr

/-- An outgoing POST request of seo.start_pipeline: method, request URL,
JSON body, bearer token used in the Authorization header. -/
structure PipelinePostRequest where
  method : String
  requestUrl : String
  payload : PipelinePayload
  bearer : String
deriving DecidableEq, Repr

/-- seo.start_pipeline, up to the point the request is issued.  The local
variable url is reassigned to the endpoint URL before the payload is
built, exactly as in the source (line 61 shadows the parameter). -/
def start_pipeline_request (url : String) : PipelinePostRequest :=
  let url := "https://api.gumloop.com/api/v1/start_pipeline?user_id=" ++ USER_ID
    ++ "&saved_item_id=" ++ SAVED_ITEM_ID
  { method := "POST"
    requestUrl := url
    payload := { url := url, focus_area := FOCUS_AREA }
    bearer := API_KEY }

/-! ## seo.py: run snapshots and result saving -/

/-- A pipeline run snapshot as returned by the run-status endpoint.  Output
values are modelled as strings (the script only ever saves the string
stored under the key output). -/
structure RunResult where
  state : Option String
  outputs : List (String × String)
  log : List String
deriving DecidableEq, Repr

/-- Python dict.get(k, d) on the outputs mapping. -/
def lookupOutput : List (String × String) → String → String → String
  | [], _, d => d
  | (k2, v) :: rest, k, d => if k2 = k then v else lookupOutput rest k d

/-- Observable events of seo.save_results_to_files: each file write either
succeeds (saved message) or fails (error message caught by that file's own
try/except), and a warning is printed when no markdown is detected. -/
inductive SeoEvent where
  | savedJson (path : String)
  | errorSavingJson (path : String)
  | savedMarkdown (path content : String)
  | errorSavingMarkdown (path : String)
  | warnNoMarkdown
deriving DecidableEq, Repr

/-- seo.save_results_to_files.  writeOk is the file-system oracle: the
write to a path succeeds exactly when writeOk path is true.  Both the JSON
write and the markdown write sit in their own try/except, so a failure is
recorded as an error event and execution continues. -/
def save_results_to_files (writeOk : String → Bool) (result : RunResult)
    (url : String) : List SeoEvent :=
  let files_dir := create_url_directory url
  let json_path := files_dir ++ "/result.json"
  let jsonEvent :=
    if writeOk json_path then SeoEvent.savedJson json_path
    else SeoEvent.errorSavingJson json_path
  let markdown_content := lookupOutput result.outputs "output" ""
  let mdEvents :=
    if pyTruthy markdown_content &&
        (pyStartsWith (pyStrip markdown_content) "#" ||
          pyContainsSub markdown_content "##") then
      let md_path := files_dir ++ "/content.md"
      if writeOk md_path then [SeoEvent.savedMarkdown md_path markdown_content]
      else [SeoEvent.errorSavingMarkdown md_path]
    else [SeoEvent.warnNoMarkdown]
  jsonEvent :: mdEvents

/-- Observable events of seo.save_markdown_output. -/
inductive SaveMdEvent where
  | savedReport (path content : String)
  | errorSaving (path : String)
  | warnNoContent
deriving DecidableEq, Repr

/-- seo.save_markdown_output: returns the saved file name (None on refusal
or write error) together with the printed events.  When output_content is
None the function fetches the latest result; fetched stands for the run
snapshot that fetch returns. -/
def save_markdown_output (writeOk : String → Bool) (run_id : String)
    (output_content : Option String) (url : Option String)
    (fetched : RunResult) : Option String × List SaveMdEvent :=
  let content :=
    match output_content with
    | none => lookupOutput fetched.outputs "output" ""
    | some c => c
  if !(pyTruthy content &&
      (pyStartsWith (pyStrip content) "#" || pyContainsSub content "##")) then
    (none, [SaveMdEvent.warnNoContent])
  else
    let filename :=
      match url with
      | some u => create_url_directory u ++ "/content.md"
      | none => run_id ++ ".md"
    if writeOk filename then (some filename, [SaveMdEvent.savedReport filename content])
    else (none, [SaveMdEvent.errorSaving filename])

/-! ## seo.py: the polling loop -/

/-- One loop iteration's outcome of the fetch inside poll_job_status:
either a snapshot was obtained, or an exception was raised during the
fetch/processing (kbd is true for KeyboardInterrupt, false for any other
Exception — the two classes the loop's except clauses handle; the requests
library and the dictionary accesses only raise Exception subclasses). -/
inductive PollEvent where
  | snapshot (r : RunResult)
  | exc (kbd : Bool)
deriving DecidableEq, Repr

/-- How a run of the polling loop ended.  exhausted means the supplied
event trace ran out while the loop would still continue (the real loop
has no iteration bound and would keep polling). -/
inductive PollResult where
  | completed
  | failed
  | interrupted
  | exhausted
deriving DecidableEq, Repr

/-- Counters observed over a polling run: number of fetch attempts
(loop iterations) and number of sleeps of the fixed interval. -/
structure PollStats where
  fetches : Nat
  sleeps : Nat
  result : PollResult
deriving DecidableEq, Repr

/-- The state string the loop reads: result.get("state", "UNKNOWN"). -/
def stateOf (r : RunResult) : String := r.state.getD "UNKNOWN"

/-- seo.poll_job_status over a trace of iteration outcomes.  DONE breaks
with no sleep after printing outputs and statistics; FAILED breaks with no
sleep; every other state (RUNNING or unrecognized) falls through to the
fixed-interval sleep; KeyboardInterrupt breaks immediately; any other
exception is printed, the loop sleeps the interval and continues. -/
def poll_job_status : List PollEvent → PollStats
  | [] => ⟨0, 0, PollResult.exhausted⟩
  | PollEvent.snapshot r :: rest =>
    if stateOf r = "DONE" then ⟨1, 0, PollResult.completed⟩
    else if stateOf r = "FAILED" then ⟨1, 0, PollResult.failed⟩
    else
      let s := poll_job_status rest
      ⟨s.fetches + 1, s.sleeps + 1, s.result⟩
  | PollEvent.exc true :: _ => ⟨1, 0, PollResult.interrupted⟩
  | PollEvent.exc false :: rest =>
    let s := poll_job_status rest
    ⟨s.fetches + 1, s.sleeps + 1, s.result⟩

/-- Specification vocabulary: the events at which the loop stops, and the
result each one yields (DONE and FAILED snapshots, keyboard interrupt). -/
def decisive : PollEvent → Option PollResult
  | PollEvent.snapshot r =>
    if stateOf r = "DONE" then some PollResult.completed
    else if stateOf r = "FAILED" then some PollResult.failed
    else none
  | PollEvent.exc true => some PollResult.interrupted
  | PollEvent.exc false => none

/-- Specification vocabulary: terminal state strings. -/
def isTerminalState (s : String) : Bool := s = "DONE" || s = "FAILED"

/-! ## HTTP fetch operations (all three scripts) -/

/-- An HTTP response: status code, body text, and the decoded body (the
value response.json() or response.content would yield). -/
structure HttpResp (β : Type) where
  status_code : Nat
  text : String
  content : β
deriving DecidableEq, Repr

/-- Transport outcome of issuing a request: a response arrived, or the
request itself failed (connection-level error with no response). -/
inductive Transport (β : Type) where
  | resp (r : HttpResp β)
  | netError
deriving DecidableEq, Repr

/-- What a fetch helper does, as seen by its caller. -/
inductive FetchResult (β : Type) where
  | success (v : β)
  | raisedAfterPrinting (status : Nat) (body : String)
  | raisedNetError
  | raisedUncaught
deriving DecidableEq, Repr

/-- requests.Response.raise_for_status raises HTTPError exactly for 4xx
and 5xx status codes. -/
def raise_for_status_raises (status : Nat) : Bool :=
  decide (400 ≤ status) && decide (status < 600)

/-- review_fetch.search_places: POST, raise_for_status inside try; on a
RequestException the error is printed (status and body when a response is
attached) and the exception is re-raised. -/
def search_places (t : Transport β) : FetchResult β :=
  match t with
  | Transport.resp r =>
    if raise_for_status_raises r.status_code then
      FetchResult.raisedAfterPrinting r.status_code r.text
    else FetchResult.success r.content
  | Transport.netError => FetchResult.raisedNetError

/-- review_fetch.fetch_place_reviews: same request/except structure as
search_places. -/
def fetch_place_reviews (t : Transport β) : FetchResult β :=
  match t with
  | Transport.resp r =>
    if raise_for_status_raises r.status_code then
      FetchResult.raisedAfterPrinting r.status_code r.text
    else FetchResult.success r.content
  | Transport.netError => FetchResult.raisedNetError

/-- url_scraper.scrape_url: same request/except structure as
search_places. -/
def scrape_url (t : Transport β) : FetchResult β :=
  match t with
  | Transport.resp r =>
    if raise_for_status_raises r.status_code then
      FetchResult.raisedAfterPrinting r.status_code r.text
    else FetchResult.success r.content
  | Transport.netError => FetchResult.raisedNetError

/-- seo.get_run_result: no raise_for_status and no try/except — the parsed
body of any response, whatever its status, is returned as the result; a
connection-level error propagates uncaught. -/
def get_run_result (t : Transport β) : FetchResult β :=
  match t with
  | Transport.resp r => FetchResult.success r.content
  | Transport.netError => FetchResult.raisedUncaught

/-- seo.start_pipeline, response side: like get_run_result it performs no
status check and returns response.json() directly. -/
def start_pipeline_response (t : Transport β) : FetchResult β :=
  match t with
  | Transport.resp r => FetchResult.success r.content
  | Transport.netError => FetchResult.raisedUncaught

/-- Exit code of review_fetch.main and url_scraper.main around a fetch:
their top-level except blocks turn any raised exception into sys.exit(1). -/
def cli_exit_after_fetch (fr : FetchResult β) : Nat :=
  match fr with
  | FetchResult.success _ => 0
  | _ => 1

/-- seo.main, results command: prints whatever get_run_result returned and
exits 0; an uncaught exception crashes the interpreter with exit code 1. -/
def seo_results_command (t : Transport β) : Option β × Nat :=
  match get_run_result t with
  | FetchResult.success v => (some v, 0)
  | _ => (none, 1)

/-! ## url_scraper.py: base64 decoding and screenshot saving -/

/-- Value of a base64 alphabet character (none for every other char). -/
def b64Val (c : Char) : Option Nat :=
  if 'A' ≤ c ∧ c ≤ 'Z' then some (c.toNat - 65)
  else if 'a' ≤ c ∧ c ≤ 'z' then some (c.toNat - 71)
  else if '0' ≤ c ∧ c ≤ '9' then some (c.toNat + 4)
  else if c = '+' then some 62
  else if c = '/' then some 63
  else none

/-- Pack 6-bit values into bytes, dropping a trailing partial byte, as the
base64 decoder does for each quad and for a final group of 2 or 3 chars. -/
def b64Bytes : List Nat → List Nat
  | a :: b :: c :: d :: rest =>
    (a * 4 + b / 16) :: ((b % 16) * 16 + c / 4) :: ((c % 4) * 64 + d) :: b64Bytes rest
  | [a, b] => [a * 4 + b / 16]
  | [a, b, c] => [a * 4 + b / 16, (b % 16) * 16 + c / 4]
  | _ => []

/-- base64.b64decode with validate=False (CPython): characters outside the
alphabet are discarded; decoding fails (binascii.Error) when the number of
data characters is 1 more than a multiple of 4, or when data plus padding
characters is not a multiple of 4; otherwise the data characters decode in
6-bit groups.  Faithful for inputs whose padding, if any, is trailing. -/
def b64decode (s : String) : Option (List Nat) :=
  let ds := s.data.filterMap b64Val
  let pads := (s.data.filter fun c => c = '=').length
  if ds.length % 4 = 1 then none
  else if (ds.length + pads) % 4 ≠ 0 then none
  else some (b64Bytes ds)

/-- Outcome of url_scraper.save_screenshot: either the target file was
written with the given bytes, or the exception raised on the way (HTTP
error, missing comma after data:image, invalid base64, failed write) was
caught by the function's blanket try/except and only an error message was
printed — no file. -/
inductive ScreenshotSave where
  | fileWritten (filename : String) (bytes : List Nat)
  | errorCaught
deriving DecidableEq, Repr

/-- url_scraper.save_screenshot.  download is the transport outcome of
requests.get(screenshot_data) — only consulted on the URL branch; writeOk
is the file-system oracle.  The bytes written are modelled as Nat values;
the URL branch writes response.content, the other branch writes the
base64-decoded data after stripping the data:image prefix via
split(",")[1] (IndexError when no comma is present). -/
def save_screenshot (writeOk : String → Bool) (screenshot_data : String)
    (filename : String) (download : Transport (List Nat)) : ScreenshotSave :=
  if pyStartsWith screenshot_data "http://" || pyStartsWith screenshot_data "https://" then
    match download with
    | Transport.netError => ScreenshotSave.errorCaught
    | Transport.resp r =>
      if raise_for_status_raises r.status_code then ScreenshotSave.errorCaught
      else if writeOk filename then ScreenshotSave.fileWritten filename r.content
      else ScreenshotSave.errorCaught
  else
    let stripped :=
      if pyStartsWith screenshot_data "data:image" then
        (pySplit screenshot_data ",")[1]?
      else some screenshot_data
    match stripped with
    | none => ScreenshotSave.errorCaught
    | some d =>
      match b64decode d with
      | none => ScreenshotSave.errorCaught
      | some bytes =>
        if writeOk filename then ScreenshotSave.fileWritten filename bytes
        else ScreenshotSave.errorCaught

/-! ## url_scraper.py and review_fetch.py: main-level file persistence -/

/-- The markdown and screenshot payloads of a successful scrape response
(data.get("markdown", "") and data.get("screenshot", "")). -/
structure ScrapeData where
  markdown : String
  screenshot : String
deriving DecidableEq, Repr

/-- How a CLI invocation ends: normal completion (exit 0) or the top-level
except Exception handler printing an unexpected error and calling
sys.exit(1).  writes lists the paths written before the end, in order. -/
inductive CliOutcome where
  | completed (writes : List String)
  | exitedUnexpectedError (writes : List String)
deriving DecidableEq, Repr

/-- url_scraper.main, file-saving section (reached when --no-save is
absent).  hasMdFormat / hasSsFormat reflect whether "markdown" and the
screenshot object are in the formats list.  The markdown write and the
response.json write are not wrapped in any local try/except: an error
there escapes to main's top-level handler, which exits 1; save_screenshot
catches its own errors. -/
def url_scraper_save_section (writeOk : String → Bool)
    (hasMdFormat hasSsFormat : Bool) (output_dir url : String)
    (data2 : ScrapeData) (download : Transport (List Nat)) : CliOutcome :=
  let url_dir := output_dir ++ "/" ++ url_safe_name url
  let mdPath := url_dir ++ "/content.md"
  let ssPath := url_dir ++ "/content.png"
  let jsonPath := url_dir ++ "/response.json"
  if hasMdFormat && pyTruthy data2.markdown && !writeOk mdPath then
    CliOutcome.exitedUnexpectedError []
  else
    let w1 := if hasMdFormat && pyTruthy data2.markdown then [mdPath] else []
    let w2 :=
      if hasSsFormat && pyTruthy data2.screenshot then
        match save_screenshot writeOk data2.screenshot ssPath download with
        | ScreenshotSave.fileWritten p _ => [p]
        | ScreenshotSave.errorCaught => []
      else []
    if !writeOk jsonPath then CliOutcome.exitedUnexpectedError (w1 ++ w2)
    else CliOutcome.completed (w1 ++ w2 ++ [jsonPath])

/-! ## review_fetch.py: display and commands -/

/-- A place summary as read from the search response; every field the
script reads is optional in the JSON. -/
structure Place where
  id : Option String
  displayName : Option String
  formattedAddress : Option String
deriving DecidableEq, Repr

/-- The search response body: search_data.get("places", []). -/
structure SearchData where
  places : Option (List Place)
deriving DecidableEq, Repr

/-- One numbered entry printed by display_search_results. -/
structure SearchEntry where
  position : Nat
  name : String
  place_id : String
  address : String
deriving DecidableEq, Repr

/-- What display_search_results prints: a no-places message, or the
numbered listing. -/
inductive SearchDisplay where
  | noPlaces
  | listing (entries : List SearchEntry)
deriving DecidableEq, Repr

/-- The loop body of display_search_results for enumerate(places, 1). -/
def formatPlaces : Nat → List Place → List SearchEntry
  | _, [] => []
  | i, p :: ps =>
    ⟨i, p.displayName.getD "Unknown Name", p.id.getD "Unknown ID",
      p.formattedAddress.getD "No address available"⟩ :: formatPlaces (i + 1) ps

/-- review_fetch.display_search_results. -/
def display_search_results (search_data : SearchData) : SearchDisplay :=
  let places := search_data.places.getD []
  if places.isEmpty then SearchDisplay.noPlaces
  else SearchDisplay.listing (formatPlaces 1 places)

/-- One review as read from the place response; authorName and text stand
for the nested authorAttribution.displayName and text.text lookups. -/
structure Review where
  authorName : Option String
  rating : Option Nat
  text : Option String
  publishTime : Option String
deriving DecidableEq, Repr

/-- The place-details response body used by display_reviews and main. -/
structure PlaceData where
  id : Option String
  displayName : Option String
  reviews : Option (List Review)
deriving DecidableEq, Repr

/-- The lines display_reviews prints, as structured events (rating none
renders as N/A). -/
inductive ReviewsOut where
  | header (name place_id : String)
  | noReviewsMsg
  | foundCount (n : Nat)
  | reviewBlock (idx : Nat) (author : String) (rating : Option Nat)
      (date text : String)
deriving DecidableEq, Repr

/-- The loop body of display_reviews for enumerate(reviews, 1). -/
def formatReviews : Nat → List Review → List ReviewsOut
  | _, [] => []
  | i, r :: rs =>
    ReviewsOut.reviewBlock i (r.authorName.getD "Anonymous") r.rating
      (r.publishTime.getD "Unknown date") (r.text.getD "No text provided")
      :: formatReviews (i + 1) rs

/-- review_fetch.display_reviews. -/
def display_reviews (place_data : PlaceData) : List ReviewsOut :=
  let header := ReviewsOut.header (place_data.displayName.getD "Unknown Place")
    (place_data.id.getD "Unknown ID")
  let reviews := place_data.reviews.getD []
  if reviews.isEmpty then [header, ReviewsOut.noReviewsMsg]
  else header :: ReviewsOut.foundCount reviews.length :: formatReviews 1 reviews

/-- review_fetch.main, reviews branch after a successful fetch: display
the reviews, then write a JSON dump only when --save was given.  The
write is not locally guarded, so a write error reaches the top-level
handler and exits 1. -/
def reviews_command (writeOk : String → Bool) (save : Bool)
    (place_id : String) (place_data : PlaceData) : List ReviewsOut × CliOutcome :=
  let out := display_reviews place_data
  if save then
    let place_name := pyReplace (place_data.displayName.getD "unknown") " " "_"
    let filename := "reviews_" ++ place_id ++ "_" ++ place_name ++ ".json"
    if writeOk filename then (out, CliOutcome.completed [filename])
    else (out, CliOutcome.exitedUnexpectedError [])
  else (out, CliOutcome.completed [])

/-- Specification vocabulary for the markdown heuristic, stated the way the
claim words it: the content is non-empty, and its whitespace-stripped text
starts with a # character or the text contains ## somewhere. -/
def SpecMarkdownEligible (s : String) : Prop :=
  s ≠ "" ∧ ((∃ t, (pyStrip s).data = '#' :: t) ∨
    ∃ l r, s.data = l ++ '#' :: '#' :: r)

/-! ## Helper lemmas -/

theorem startsWithL_iff (p : List Char) : ∀ s : List Char,
    startsWithL s p = true ↔ ∃ t, s = p ++ t := by
  induction p with
  | nil =>
    intro s
    cases s <;> simp [startsWithL]
  | cons p ps ih =>
    intro s
    cases s with
    | nil => simp [startsWithL]
    | cons c cs =>
      simp only [startsWithL, Bool.and_eq_true, decide_eq_true_eq, ih,
        List.cons_append, List.cons.injEq]
      constructor
      · rintro ⟨h1, t, h2⟩
        exact ⟨t, h1, h2⟩
      · rintro ⟨t, h1, h2⟩
        exact ⟨h1, t, h2⟩

theorem containsSubL_iff (sub : List Char) : ∀ s : List Char,
    containsSubL s sub = true ↔ ∃ l r, s = l ++ sub ++ r := by
  intro s
  induction s with
  | nil =>
    simp only [containsSubL, startsWithL_iff]
    constructor
    · rintro ⟨t, ht⟩
      exact ⟨[], t, ht⟩
    · rintro ⟨l, r, h⟩
      rcases List.append_eq_nil.mp (List.append_eq_nil.mp h.symm).1 with ⟨-, h2⟩
      exact ⟨r, by simp_all⟩
  | cons c cs ih =>
    simp only [containsSubL, Bool.or_eq_true, startsWithL_iff, ih]
    constructor
    · rintro (⟨t, ht⟩ | ⟨l, r, h⟩)
      · exact ⟨[], t, by simpa using ht⟩
      · exact ⟨c :: l, r, by simp [h]⟩
    · rintro ⟨l, r, h⟩
      cases l with
      | nil => exact Or.inl ⟨r, by simpa using h⟩
      | cons x xs =>
        right
        refine ⟨xs, r, ?_⟩
        have h2 : c :: cs = x :: (xs ++ sub ++ r) := by simpa using h
        have h3 : cs = xs ++ sub ++ r := (List.cons.injEq .. ▸ h2).2
        simpa [List.append_assoc] using h3

theorem pyTruthy_iff (s : String) : pyTruthy s = true ↔ s ≠ "" := by
  cases s with
  | mk data =>
    cases data <;> simp [pyTruthy, String.ext_iff]

theorem specMarkdownEligible_iff (s : String) :
    (pyTruthy s && (pyStartsWith (pyStrip s) "#" || pyContainsSub s "##")) = true ↔
      SpecMarkdownEligible s := by
  have h1 : "#".data = ['#'] := rfl
  have h2 : "##".data = ['#', '#'] := rfl
  simp only [SpecMarkdownEligible, Bool.and_eq_true, Bool.or_eq_true,
    pyTruthy_iff, pyStartsWith, pyContainsSub, startsWithL_iff, containsSubL_iff,
    h1, h2, List.singleton_append, List.append_assoc, List.cons_append,
    List.nil_append]

theorem formatPlaces_length : ∀ (l : List Place) (i : Nat),
    (formatPlaces i l).length = l.length := by
  intro l
  induction l with
  | nil => intro i; rfl
  | cons p ps ih => intro i; simp [formatPlaces, ih]

theorem formatPlaces_getElem : ∀ (l : List Place) (i k : Nat) (h : k < l.length),
    (formatPlaces i l)[k]? =
      some ⟨i + k, (l.get ⟨k, h⟩).displayName.getD "Unknown Name",
        (l.get ⟨k, h⟩).id.getD "Unknown ID",
        (l.get ⟨k, h⟩).formattedAddress.getD "No address available"⟩ := by
  intro l
  induction l with
  | nil => intro i k h; exact absurd h (by simp)
  | cons p ps ih =>
    intro i k h
    cases k with
    | zero => simp [formatPlaces]
    | succ k =>
      have hk : k < ps.length := by simpa using h
      have := ih (i + 1) k hk
      simp only [formatPlaces, List.getElem?_cons_succ, List.get_cons_succ, this]
      have harith : i + 1 + k = i + (k + 1) := by omega
      rw [harith]

/-! ## Claim theorems -/

/-- C1: code bug in seo.start_pipeline. For the caller-supplied URL
https://www.vipcarcare.com.au the JSON body's url field is the
start-pipeline endpoint URL, not the caller's URL — the local variable url
is reassigned to the endpoint before the payload is built, so the body
ignores the caller's URL entirely (the payload is the same for every
input). -/
theorem start_pipeline_body_url_is_endpoint :
    (start_pipeline_request "https://www.vipcarcare.com.au").payload.url ≠
      "https://www.vipcarcare.com.au" ∧
    (start_pipeline_request "https://www.vipcarcare.com.au").payload.url =
      "https://api.gumloop.com/api/v1/start_pipeline?user_id=5f9T1QuvWvbnkogeUqfk7lmUpsm1&saved_item_id=ujef8PYUuWgAtDcYR43aNF" ∧
    ∀ u : String, (start_pipeline_request u).payload =
      (start_pipeline_request "https://www.vipcarcare.com.au").payload :=
  ⟨by decide, by decide, fun _ => rfl⟩

/-- C5: the URL-to-directory-name mappings of both scripts are
deterministic functions, and for https://www.Example.com/path both
resulting names (Example_com from seo.get_url_directory_name,
www_Example_com_path from the scraper's inline sanitizer) contain no
slash, no colon, and no http:// or https:// scheme text. -/
theorem url_directory_name_sanitized :
    (∀ u v : String, u = v →
      get_url_directory_name u = get_url_directory_name v ∧
      url_safe_name u = url_safe_name v) ∧
    get_url_directory_name "https://www.Example.com/path" = "Example_com" ∧
    url_safe_name "https://www.Example.com/path" = "www_Example_com_path" ∧
    ((get_url_directory_name "https://www.Example.com/path").data.all
      fun c => !(c = '/' || c = ':')) = true ∧
    ((url_safe_name "https://www.Example.com/path").data.all
      fun c => !(c = '/' || c = ':')) = true ∧
    pyContainsSub (get_url_directory_name "https://www.Example.com/path") "http://" = false ∧
    pyContainsSub (get_url_directory_name "https://www.Example.com/path") "https://" = false ∧
    pyContainsSub (url_safe_name "https://www.Example.com/path") "http://" = false ∧
    pyContainsSub (url_safe_name "https://www.Example.com/path") "https://" = false :=
  ⟨fun _ _ h => by rw [h]; exact ⟨rfl, rfl⟩, by decide, by decide, by decide,
    by decide, by decide, by decide, by decide, by decide⟩

/-- C5 witness: the determinism clause applied at the example URL. -/
theorem url_directory_name_sanitized_witness :
    get_url_directory_name "https://www.Example.com/path" =
      get_url_directory_name "https://www.Example.com/path" :=
  (url_directory_name_sanitized.1 "https://www.Example.com/path"
    "https://www.Example.com/path" rfl).1

/-- C6: for a search response with places list l, display_search_results
prints a numbered listing with exactly l.length entries; the entry at
index k is numbered k+1 and shows the k-th place's name, id and address
with the fixed defaults substituted for missing fields (so order is
preserved); an empty or absent list prints the no-places message. -/
theorem search_results_listing :
    (∀ (l : List Place) (k : Nat) (h : k < l.length),
      ∃ es, display_search_results ⟨some l⟩ = SearchDisplay.listing es ∧
        es.length = l.length ∧
        es[k]? = some ⟨k + 1, (l.get ⟨k, h⟩).displayName.getD "Unknown Name",
          (l.get ⟨k, h⟩).id.getD "Unknown ID",
          (l.get ⟨k, h⟩).formattedAddress.getD "No address available"⟩) ∧
    display_search_results ⟨some []⟩ = SearchDisplay.noPlaces ∧
    display_search_results ⟨none⟩ = SearchDisplay.noPlaces := by
  refine ⟨?_, by decide, by decide⟩
  intro l k h
  have hne : l.isEmpty = false := by
    cases l with
    | nil => exact absurd h (by simp)
    | cons p ps => rfl
  refine ⟨formatPlaces 1 l, ?_, formatPlaces_length l 1, ?_⟩
  · simp [display_search_results, hne]
  · have := formatPlaces_getElem l 1 k h
    rw [this]
    have harith : 1 + k = k + 1 := by omega
    rw [harith]

/-- C6 witness: the listing clause applied to a two-place response with
missing fields in the second place. -/
theorem search_results_listing_witness :
    ∃ es, display_search_results ⟨some [⟨some "id1", some "Name1", some "Addr1"⟩,
        ⟨none, none, none⟩]⟩ = SearchDisplay.listing es ∧
      es.length = 2 ∧
      es[1]? = some ⟨2, "Unknown Name", "Unknown ID", "No address available"⟩ :=
  search_results_listing.1 [⟨some "id1", some "Name1", some "Addr1"⟩,
    ⟨none, none, none⟩] 1 (by decide)

/-- C7: when the reviews list is absent or empty, the reviews command
prints the no-reviews message, and without --save it performs no file
write and completes normally. -/
theorem reviews_empty_no_write :
    ∀ (pd : PlaceData) (pid : String) (writeOk : String → Bool),
      pd.reviews = none ∨ pd.reviews = some [] →
      ReviewsOut.noReviewsMsg ∈ (reviews_command writeOk false pid pd).1 ∧
      (reviews_command writeOk false pid pd).2 = CliOutcome.completed [] := by
  intro pd pid writeOk hrev
  have hempty : (pd.reviews.getD []).isEmpty = true := by
    rcases hrev with h | h <;> rw [h] <;> rfl
  constructor
  · simp [reviews_command, display_reviews, hempty]
  · simp [reviews_command]

/-- C7 witness: applied to a response whose reviews list is empty. -/
theorem reviews_empty_no_write_witness :
    ReviewsOut.noReviewsMsg ∈
      (reviews_command (fun _ => true) false "pid" ⟨none, none, some []⟩).1 ∧
    (reviews_command (fun _ => true) false "pid" ⟨none, none, some []⟩).2 =
      CliOutcome.completed [] :=
  reviews_empty_no_write ⟨none, none, some []⟩ "pid" (fun _ => true) (Or.inr rfl)

/-- C3: both markdown-save operations write the output string s to a
content file exactly when s is non-empty and its stripped text starts
with # or s contains ## (otherwise no markdown file is written and a
warning is printed); "plain text" is rejected while "# Title\nbody" and
"intro ## section" are accepted. -/
theorem markdown_save_heuristic :
    (∀ s url : String,
      ((∃ p, SeoEvent.savedMarkdown p s ∈
          save_results_to_files (fun _ => true) ⟨some "DONE", [("output", s)], []⟩ url) ↔
        SpecMarkdownEligible s) ∧
      (SeoEvent.warnNoMarkdown ∈
          save_results_to_files (fun _ => true) ⟨some "DONE", [("output", s)], []⟩ url ↔
        ¬ SpecMarkdownEligible s)) ∧
    (∀ s rid : String,
      ((save_markdown_output (fun _ => true) rid (some s) none ⟨none, [], []⟩).1 =
          some (rid ++ ".md") ↔ SpecMarkdownEligible s) ∧
      (SaveMdEvent.savedReport (rid ++ ".md") s ∈
          (save_markdown_output (fun _ => true) rid (some s) none ⟨none, [], []⟩).2 ↔
        SpecMarkdownEligible s)) ∧
    save_results_to_files (fun _ => true) ⟨some "DONE", [("output", "plain text")], []⟩
      "https://example.com" =
      [SeoEvent.savedJson "files/example_com/result.json", SeoEvent.warnNoMarkdown] ∧
    save_results_to_files (fun _ => true) ⟨some "DONE", [("output", "# Title\nbody")], []⟩
      "https://example.com" =
      [SeoEvent.savedJson "files/example_com/result.json",
        SeoEvent.savedMarkdown "files/example_com/content.md" "# Title\nbody"] ∧
    save_results_to_files (fun _ => true) ⟨some "DONE", [("output", "intro ## section")], []⟩
      "https://example.com" =
      [SeoEvent.savedJson "files/example_com/result.json",
        SeoEvent.savedMarkdown "files/example_com/content.md" "intro ## section"] := by
  refine ⟨?_, ?_, by decide, by decide, by decide⟩
  · intro s url
    have hl : lookupOutput [("output", s)] "output" "" = s := by simp [lookupOutput]
    by_cases hb : (pyTruthy s && (pyStartsWith (pyStrip s) "#" || pyContainsSub s "##")) = true
    · have he : SpecMarkdownEligible s := (specMarkdownEligible_iff s).mp hb
      constructor
      · simp [save_results_to_files, hl, hb, he]
      · simp [save_results_to_files, hl, hb, he]
    · have hb2 : (pyTruthy s && (pyStartsWith (pyStrip s) "#" || pyContainsSub s "##")) = false := by
        revert hb; cases pyTruthy s && (pyStartsWith (pyStrip s) "#" || pyContainsSub s "##") <;> simp
      have he : ¬ SpecMarkdownEligible s := fun h => hb ((specMarkdownEligible_iff s).mpr h)
      constructor
      · simp [save_results_to_files, hl, hb2, he]
      · simp [save_results_to_files, hl, hb2, he]
  · intro s rid
    by_cases hb : (pyTruthy s && (pyStartsWith (pyStrip s) "#" || pyContainsSub s "##")) = true
    · have he : SpecMarkdownEligible s := (specMarkdownEligible_iff s).mp hb
      constructor
      · simp [save_markdown_output, hb, he]
      · simp [save_markdown_output, hb, he]
    · have hb2 : (pyTruthy s && (pyStartsWith (pyStrip s) "#" || pyContainsSub s "##")) = false := by
        revert hb; cases pyTruthy s && (pyStartsWith (pyStrip s) "#" || pyContainsSub s "##") <;> simp
      have he : ¬ SpecMarkdownEligible s := fun h => hb ((specMarkdownEligible_iff s).mpr h)
      constructor
      · simp [save_markdown_output, hb2, he]
      · simp [save_markdown_output, hb2, he]

/-- C2: over a sequence of fetched snapshots the polling loop stops
exactly at the first snapshot whose state is DONE or FAILED, after
pre.length + 1 fetches and pre.length sleeps (one sleep after every
non-terminal fetch — RUNNING, unrecognized or missing state alike — and
none after the terminal one); in particular [RUNNING, RUNNING, DONE]
gives three fetches and two sleeps ending completed, and [FAILED] gives
one fetch and no sleep ending failed. -/
theorem poll_loop_stops_at_terminal :
    (∀ (pre : List RunResult) (r : RunResult) (post : List RunResult),
      (∀ x ∈ pre, isTerminalState (stateOf x) = false) →
      isTerminalState (stateOf r) = true →
      poll_job_status ((pre ++ r :: post).map PollEvent.snapshot) =
        ⟨pre.length + 1, pre.length,
          if stateOf r = "DONE" then PollResult.completed else PollResult.failed⟩) ∧
    poll_job_status ([⟨some "RUNNING", [], []⟩, ⟨some "RUNNING", [], []⟩,
      ⟨some "DONE", [], []⟩].map PollEvent.snapshot) = ⟨3, 2, PollResult.completed⟩ ∧
    poll_job_status ([⟨some "FAILED", [], []⟩].map PollEvent.snapshot) =
      ⟨1, 0, PollResult.failed⟩ := by
  have poll_cons_nonterminal : ∀ (x : RunResult), ¬ stateOf x = "DONE" →
      ¬ stateOf x = "FAILED" → ∀ rest : List PollEvent,
      poll_job_status (PollEvent.snapshot x :: rest) =
        ⟨(poll_job_status rest).fetches + 1, (poll_job_status rest).sleeps + 1,
          (poll_job_status rest).result⟩ := by
    intro x hd hf rest
    simp [poll_job_status, hd, hf]
  refine ⟨?_, by decide, by decide⟩
  intro pre
  induction pre with
  | nil =>
    intro r post _ hr
    by_cases hd : stateOf r = "DONE"
    · simp [poll_job_status, hd]
    · have hor : stateOf r = "DONE" ∨ stateOf r = "FAILED" := by
        simpa [isTerminalState] using hr
      have hf : stateOf r = "FAILED" := hor.resolve_left hd
      simp [poll_job_status, hd, hf]
  | cons x xs ih =>
    intro r post hpre hr
    have hx := hpre x (List.mem_cons_self x xs)
    have hx1 : ¬ stateOf x = "DONE" := by
      intro h; rw [isTerminalState, h] at hx; simp at hx
    have hx2 : ¬ stateOf x = "FAILED" := by
      intro h; rw [isTerminalState, h] at hx; simp at hx
    have ihr := ih r post (fun y hy => hpre y (List.mem_cons_of_mem x hy)) hr
    rw [List.cons_append, List.map_cons, poll_cons_nonterminal x hx1 hx2, ihr]
    simp

/-- C10: the polling loop survives every fetch-time exception: a
non-keyboard exception adds one fetch and one sleep and polling goes on
with an unchanged eventual result, a KeyboardInterrupt stops the loop
immediately, and whenever the loop ends within a trace it does so at an
event that is a DONE snapshot, a FAILED snapshot or a keyboard interrupt,
every earlier event being non-decisive. -/
theorem poll_loop_never_raises :
    (∀ rest, poll_job_status (PollEvent.exc false :: rest) =
      ⟨(poll_job_status rest).fetches + 1, (poll_job_status rest).sleeps + 1,
        (poll_job_status rest).result⟩) ∧
    (∀ rest, poll_job_status (PollEvent.exc true :: rest) =
      ⟨1, 0, PollResult.interrupted⟩) ∧
    (∀ events, (poll_job_status events).result ≠ PollResult.exhausted →
      ∃ pre e post, events = pre ++ e :: post ∧
        decisive e = some (poll_job_status events).result ∧
        ∀ x ∈ pre, decisive x = none) := by
  refine ⟨fun rest => rfl, fun rest => rfl, ?_⟩
  intro events
  induction events with
  | nil => intro h; exact absurd rfl h
  | cons e rest ih =>
    intro h
    match e with
    | PollEvent.snapshot r =>
      by_cases hd : stateOf r = "DONE"
      · exact ⟨[], PollEvent.snapshot r, rest, by simp,
          by simp [poll_job_status, decisive, hd], by simp⟩
      · by_cases hf : stateOf r = "FAILED"
        · exact ⟨[], PollEvent.snapshot r, rest, by simp,
            by simp [poll_job_status, decisive, hd, hf], by simp⟩
        · have hres : (poll_job_status (PollEvent.snapshot r :: rest)).result =
              (poll_job_status rest).result := by
            simp [poll_job_status, hd, hf]
          rw [hres] at h ⊢
          obtain ⟨pre, e2, post, heq, hdec, hpre⟩ := ih h
          refine ⟨PollEvent.snapshot r :: pre, e2, post, by simp [heq], hdec, ?_⟩
          intro x hx
          rcases List.mem_cons.mp hx with hx | hx
          · subst hx; simp [decisive, hd, hf]
          · exact hpre x hx
    | PollEvent.exc true =>
      exact ⟨[], PollEvent.exc true, rest, by simp,
        by simp [poll_job_status, decisive], by simp⟩
    | PollEvent.exc false =>
      have hres : (poll_job_status (PollEvent.exc false :: rest)).result =
          (poll_job_status rest).result := rfl
      rw [hres] at h ⊢
      obtain ⟨pre, e2, post, heq, hdec, hpre⟩ := ih h
      refine ⟨PollEvent.exc false :: pre, e2, post, by simp [heq], hdec, ?_⟩
      intro x hx
      rcases List.mem_cons.mp hx with hx | hx
      · subst hx; simp [decisive]
      · exact hpre x hx

/-- C2 witness: the general clause applied to the trace [RUNNING, DONE]. -/
theorem poll_loop_stops_at_terminal_witness :
    poll_job_status (([(⟨some "RUNNING", [], []⟩ : RunResult)] ++
      (⟨some "DONE", [], []⟩ : RunResult) :: []).map PollEvent.snapshot) =
      ⟨2, 1, PollResult.completed⟩ := by
  have h := poll_loop_stops_at_terminal.1 [(⟨some "RUNNING", [], []⟩ : RunResult)]
    ⟨some "DONE", [], []⟩ [] (by decide) (by decide)
  rw [h]
  decide

/-- C10 witness: the termination clause applied to the trace consisting of
a transient error followed by a DONE snapshot. -/
theorem poll_loop_never_raises_witness :
    ∃ pre e post,
      [PollEvent.exc false, PollEvent.snapshot ⟨some "DONE", [], []⟩] = pre ++ e :: post ∧
      decisive e = some (poll_job_status [PollEvent.exc false,
        PollEvent.snapshot ⟨some "DONE", [], []⟩]).result ∧
      ∀ x ∈ pre, decisive x = none :=
  poll_loop_never_raises.2.2 [PollEvent.exc false,
    PollEvent.snapshot ⟨some "DONE", [], []⟩] (by decide)

/-- C4 counterexample: the payload "data:image" starts with data:image but
has no comma, so split(",")[1] raises IndexError; save_screenshot catches
it and produces no file, refuting the claim's universal "in both cases a
file is produced at the target path". -/
theorem screenshot_no_comma_counterexample :
    save_screenshot (fun _ => true) "data:image" "files/x/content.png"
      (Transport.resp ⟨200, "", []⟩) = ScreenshotSave.errorCaught ∧
    ¬ ∃ b, save_screenshot (fun _ => true) "data:image" "files/x/content.png"
      (Transport.resp ⟨200, "", []⟩) = ScreenshotSave.fileWritten "files/x/content.png" b := by
  have h : save_screenshot (fun _ => true) "data:image" "files/x/content.png"
      (Transport.resp ⟨200, "", []⟩) = ScreenshotSave.errorCaught := by decide
  refine ⟨h, ?_⟩
  rintro ⟨b, hb⟩
  rw [h] at hb
  exact ScreenshotSave.noConfusion hb

/-- C4 amended: an http:// or https:// payload takes the download path and,
when the download returns a non-error status and the write succeeds, the
response bytes land in the target file; any other payload takes the base64
path, stripping up to the first comma when it starts with data:image, and
when the (stripped) data decodes and the write succeeds the decoded bytes
land in the target file; a data:image payload without a comma is caught
with no file; and any file ever produced is at the target path. -/
theorem save_screenshot_amended :
    ∀ (writeOk : String → Bool) (sdata filename : String),
      ((pyStartsWith sdata "http://" = true ∨ pyStartsWith sdata "https://" = true) →
        ∀ r : HttpResp (List Nat), raise_for_status_raises r.status_code = false →
          writeOk filename = true →
          save_screenshot writeOk sdata filename (Transport.resp r) =
            ScreenshotSave.fileWritten filename r.content) ∧
      (pyStartsWith sdata "http://" = false → pyStartsWith sdata "https://" = false →
        pyStartsWith sdata "data:image" = true →
        ∀ (dl : Transport (List Nat)) (d : String) (bytes : List Nat),
          (pySplit sdata ",")[1]? = some d → b64decode d = some bytes →
          writeOk filename = true →
          save_screenshot writeOk sdata filename dl =
            ScreenshotSave.fileWritten filename bytes) ∧
      (pyStartsWith sdata "http://" = false → pyStartsWith sdata "https://" = false →
        pyStartsWith sdata "data:image" = false →
        ∀ (dl : Transport (List Nat)) (bytes : List Nat),
          b64decode sdata = some bytes → writeOk filename = true →
          save_screenshot writeOk sdata filename dl =
            ScreenshotSave.fileWritten filename bytes) ∧
      (pyStartsWith sdata "http://" = false → pyStartsWith sdata "https://" = false →
        pyStartsWith sdata "data:image" = true →
        (pySplit sdata ",")[1]? = none →
        ∀ dl : Transport (List Nat),
          save_screenshot writeOk sdata filename dl = ScreenshotSave.errorCaught) ∧
      (∀ (dl : Transport (List Nat)) (p : String) (bytes : List Nat),
        save_screenshot writeOk sdata filename dl = ScreenshotSave.fileWritten p bytes →
        p = filename) := by
  intro writeOk sdata filename
  refine ⟨?_, ?_, ?_, ?_, ?_⟩
  · rintro (hu | hu) r hr hw <;> simp [save_screenshot, hu, hr, hw]
  · intro h1 h2 hd dl d bytes hsplit hdec hw
    simp [save_screenshot, h1, h2, hd, hsplit, hdec, hw]
  · intro h1 h2 hd dl bytes hdec hw
    simp [save_screenshot, h1, h2, hd, hdec, hw]
  · intro h1 h2 hd hsplit dl
    simp [save_screenshot, h1, h2, hd, hsplit]
  · intro dl p bytes h
    by_cases hu : (pyStartsWith sdata "http://" || pyStartsWith sdata "https://") = true
    · cases dl with
      | netError => simp [save_screenshot, hu] at h
      | resp r =>
        by_cases hr : raise_for_status_raises r.status_code = true
        · simp [save_screenshot, hu, hr] at h
        · by_cases hw : writeOk filename = true
          · simp [save_screenshot, hu, hr, hw] at h
            exact h.1.symm
          · simp [save_screenshot, hu, hr, hw] at h
    · have hu2 : (pyStartsWith sdata "http://" || pyStartsWith sdata "https://") = false := by
        revert hu
        cases pyStartsWith sdata "http://" || pyStartsWith sdata "https://" <;> simp
      by_cases hd : pyStartsWith sdata "data:image" = true
      · cases hsplit : (pySplit sdata ",")[1]? with
        | none => simp [save_screenshot, hu2, hd, hsplit] at h
        | some d =>
          cases hdec : b64decode d with
          | none => simp [save_screenshot, hu2, hd, hsplit, hdec] at h
          | some bytes2 =>
            by_cases hw : writeOk filename = true
            · simp [save_screenshot, hu2, hd, hsplit, hdec, hw] at h
              exact h.1.symm
            · simp [save_screenshot, hu2, hd, hsplit, hdec, hw] at h
      · have hd2 : pyStartsWith sdata "data:image" = false := by
          revert hd; cases pyStartsWith sdata "data:image" <;> simp
        cases hdec : b64decode sdata with
        | none => simp [save_screenshot, hu2, hd2, hdec] at h
        | some bytes2 =>
          by_cases hw : writeOk filename = true
          · simp [save_screenshot, hu2, hd2, hdec, hw] at h
            exact h.1.symm
          · simp [save_screenshot, hu2, hd2, hdec, hw] at h

/-- C4 witness: the base64 clause applied to data:image/png;base64,AAAA,
which decodes to three zero bytes. -/
theorem save_screenshot_amended_witness :
    save_screenshot (fun _ => true) "data:image/png;base64,AAAA" "files/x/content.png"
      Transport.netError = ScreenshotSave.fileWritten "files/x/content.png" [0, 0, 0] :=
  (save_screenshot_amended (fun _ => true) "data:image/png;base64,AAAA"
    "files/x/content.png").2.1 (by decide) (by decide) (by decide)
    Transport.netError "AAAA" [0, 0, 0] (by decide) (by decide) rfl

/-- C8 counterexample: seo.get_run_result performs no status check — a 500
response's parsed body is returned as a normal success value, and the
results command prints it and exits 0, refuting the claim that every
remote-fetch operation raises on non-2xx. -/
theorem get_run_result_returns_error_body :
    get_run_result (Transport.resp (⟨500, "Internal Server Error", "errbody"⟩ :
      HttpResp String)) = FetchResult.success "errbody" ∧
    seo_results_command (Transport.resp (⟨500, "Internal Server Error", "errbody"⟩ :
      HttpResp String)) = (some "errbody", 0) :=
  ⟨rfl, rfl⟩

/-- C8 amended: in the places client's search and review fetches and the
scraper's scrape operation, a 4xx/5xx response is caught, its status code
and body are printed, the exception is re-raised, and the CLI caller exits
1; the pipeline client's start and get-result perform no status check and
return the parsed body of any response as a normal result (the results
command then exits 0). -/
theorem http_error_handling_amended :
    (∀ (β : Type) (r : HttpResp β), raise_for_status_raises r.status_code = true →
      search_places (Transport.resp r) = FetchResult.raisedAfterPrinting r.status_code r.text ∧
      fetch_place_reviews (Transport.resp r) =
        FetchResult.raisedAfterPrinting r.status_code r.text ∧
      scrape_url (Transport.resp r) = FetchResult.raisedAfterPrinting r.status_code r.text ∧
      cli_exit_after_fetch (search_places (Transport.resp r)) = 1 ∧
      cli_exit_after_fetch (fetch_place_reviews (Transport.resp r)) = 1 ∧
      cli_exit_after_fetch (scrape_url (Transport.resp r)) = 1) ∧
    (∀ (β : Type) (r : HttpResp β),
      get_run_result (Transport.resp r) = FetchResult.success r.content ∧
      start_pipeline_response (Transport.resp r) = FetchResult.success r.content ∧
      seo_results_command (Transport.resp r) = (some r.content, 0)) := by
  constructor
  · intro β r hr
    simp [search_places, fetch_place_reviews, scrape_url, cli_exit_after_fetch, hr]
  · intro β r
    exact ⟨rfl, rfl, rfl⟩

/-- C8 witness: the 4xx clause applied to a 404 response. -/
theorem http_error_handling_amended_witness :
    search_places (Transport.resp (⟨404, "Not Found", "body"⟩ : HttpResp String)) =
      FetchResult.raisedAfterPrinting 404 "Not Found" ∧
    cli_exit_after_fetch (search_places (Transport.resp
      (⟨404, "Not Found", "body"⟩ : HttpResp String))) = 1 :=
  ⟨(http_error_handling_amended.1 String ⟨404, "Not Found", "body"⟩ (by decide)).1,
    (http_error_handling_amended.1 String ⟨404, "Not Found", "body"⟩ (by decide)).2.2.2.1⟩

/-- C9 counterexample: in url_scraper.main a failing markdown write is not
caught per-file — with the markdown write failing, the run aborts through
the top-level handler with exit 1 and neither the screenshot nor the
response.json archive are written, refuting the claim that no file-write
error aborts the process. -/
theorem file_write_error_aborts_scraper :
    url_scraper_save_section (fun p => decide (p ≠ "files/www_example_com/content.md"))
      true true "files" "https://www.example.com" ⟨"# md", "AAAA"⟩ Transport.netError =
      CliOutcome.exitedUnexpectedError [] := by decide

/-- C9 amended: only seo.save_results_to_files catches write errors
per-file — it always performs both steps (two events), logs a JSON write
failure in place, and the markdown handling is unaffected by the JSON
outcome; in the scraper and the places client a file-write error escapes
to the top-level handler, which aborts the rest of the run with exit 1. -/
theorem file_write_error_containment_amended :
    (∀ (writeOk : String → Bool) (r : RunResult) (u : String),
      (save_results_to_files writeOk r u).length = 2 ∧
      ((save_results_to_files writeOk r u).head? =
          some (SeoEvent.errorSavingJson (create_url_directory u ++ "/result.json")) ↔
        writeOk (create_url_directory u ++ "/result.json") = false)) ∧
    (∀ (writeOk writeOk2 : String → Bool) (r : RunResult) (u : String),
      writeOk (create_url_directory u ++ "/content.md") =
        writeOk2 (create_url_directory u ++ "/content.md") →
      (save_results_to_files writeOk r u).tail = (save_results_to_files writeOk2 r u).tail) ∧
    (∀ (writeOk : String → Bool) (hasSs : Bool) (od u : String) (d : ScrapeData)
        (dl : Transport (List Nat)),
      pyTruthy d.markdown = true →
      writeOk (od ++ "/" ++ url_safe_name u ++ "/content.md") = false →
      url_scraper_save_section writeOk true hasSs od u d dl =
        CliOutcome.exitedUnexpectedError []) ∧
    (∀ (writeOk : String → Bool) (pid : String) (pd : PlaceData),
      writeOk ("reviews_" ++ pid ++ "_" ++
          pyReplace (pd.displayName.getD "unknown") " " "_" ++ ".json") = false →
      (reviews_command writeOk true pid pd).2 = CliOutcome.exitedUnexpectedError []) := by
  refine ⟨?_, ?_, ?_, ?_⟩
  · intro writeOk r u
    constructor
    · simp only [save_results_to_files]
      split_ifs <;> rfl
    · constructor
      · intro h
        by_cases hw : writeOk (create_url_directory u ++ "/result.json") = true
        · simp [save_results_to_files, hw] at h
        · revert hw
          cases writeOk (create_url_directory u ++ "/result.json") <;> simp
      · intro h
        simp [save_results_to_files, h]
  · intro writeOk writeOk2 r u h
    simp only [save_results_to_files, List.tail_cons]
    rw [h]
  · intro writeOk hasSs od u d dl hmd hw
    simp [url_scraper_save_section, hmd, hw]
  · intro writeOk pid pd h
    simp [reviews_command, h]

/-- C9 witness: the scraper-abort clause applied to an always-failing file
system. -/
theorem file_write_error_containment_amended_witness :
    url_scraper_save_section (fun _ => false) true true "files"
      "https://www.example.com" ⟨"# md", ""⟩ Transport.netError =
      CliOutcome.exitedUnexpectedError [] :=
  file_write_error_containment_amended.2.2.1 (fun _ => false) true "files"
    "https://www.example.com" ⟨"# md", ""⟩ Transport.netError (by decide) rfl
